import Mathlib

/-!
# Verification of the Intervexa multi-signal fusion and scoring engine

A shallow embedding, in Lean 4, of the deterministic scoring logic of the
Intervexa mock-interview assistant:

* `Fusion Model/ai_engine/fusion_engine.py` — the `FusionEngine` class
  (weighted voice/face fusion, feedback tiers, emotion summary);
* `Facial_Model/quantum-cluster/models/Facial_AI_Module.py` — the
  `FacialExpressionModel` class (interview metrics, emotion stabilisation,
  session accumulation and reduction);
* `Voice_Model/ai_engine/vocal_analysis.py` — the short-clip guard of the
  acoustic analysis pipeline.

Python floats are modelled as exact rationals (`ℚ`); Python's `round(x, n)`
(round-half-to-even on the scaled value) is modelled by `roundHalfEven`.
Dictionaries with string keys are modelled as association lists, and
`dict.get(k, d)` as lookup-with-default.  External neural models (DeepFace,
Wav2Vec2, librosa feature extraction) are out of scope per the spec: their
outputs appear as explicit inputs to the embedded functions.
-/

namespace Intervexa

/-- Python's `round` ties-to-even on an exact rational: the nearest integer,
with exact halves going to the even neighbour. -/
def roundHalfEven (q : ℚ) : ℤ :=
  let f := ⌊q⌋
  let r := q - f
  if r < 1/2 then f
  else if r > 1/2 then f + 1
  else if Even f then f else f + 1

/-- Python `round(x, 1)` on an exact rational. -/
def round1 (q : ℚ) : ℚ := (roundHalfEven (10 * q) : ℚ) / 10

/-- Python `round(x, 2)` on an exact rational. -/
def round2 (q : ℚ) : ℚ := (roundHalfEven (100 * q) : ℚ) / 100

/-- `numpy.clip(x, lo, hi)` / the spec's `clamp`. -/
def clamp (x lo hi : ℚ) : ℚ := min (max x lo) hi

/-- Python `str.lower()`: character-wise lowering of the label strings
(all labels in this code base are ASCII, where `Char.toLower` agrees with
Python's lowering). -/
def pyLower (s : String) : String := ⟨s.data.map Char.toLower⟩

/-! ## Fusion engine (`fusion_engine.py`) -/

namespace FusionEngine

/-- A Python value stored under the `"score"` key of a fusion-input dict:
either a value `float()` accepts (modelled by its exact rational value) or
one on which `float()` raises `TypeError`/`ValueError`. -/
inductive ScoreVal where
  | num (q : ℚ)
  | nonNumeric
deriving DecidableEq

/-- A voice/face data dict passed to `fuse_scores`: optional `"score"` and
`"emotion"` entries (absent key ≡ `none`). -/
structure FusionData where
  score : Option ScoreVal
  emotion : Option String
deriving DecidableEq

/-- `VOICE_WEIGHT` class attribute. -/
def VOICE_WEIGHT : ℚ := 6/10

/-- `FACE_WEIGHT` class attribute. -/
def FACE_WEIGHT : ℚ := 4/10

/-- `FusionEngine._extract`: safely extract `(score, emotion)` from an
optional data dict. `data.get("score", 0)` coerced through `float` with
`TypeError`/`ValueError` caught to `0.0`; emotion stripped and defaulted
to `"N/A"` when missing or empty after stripping. -/
def extract (data : Option FusionData) : ℚ × String :=
  match data with
  | none => (0, "N/A")
  | some d =>
    let score : ℚ :=
      match d.score with
      | none => 0                -- data.get("score", 0) → float(0)
      | some (.num q) => q
      | some .nonNumeric => 0    -- float() raised, caught, → 0.0
    let emotion : String :=
      match d.emotion with
      | none => "N/A"
      | some e => if e.trim = "" then "N/A" else e.trim
    (score, emotion)

/-- One entry of `FusionEngine._FEEDBACK_RULES`. -/
structure FeedbackRule where
  min : ℚ
  max : ℚ
  label : String
  feedback : String

/-- `FusionEngine._FEEDBACK_RULES`: the six score-range → label/feedback
rules, with the exact boundaries of the source. -/
def FEEDBACK_RULES : List FeedbackRule :=
  [ ⟨90, 100, "Outstanding",
      "Outstanding non-verbal communication! Your voice and facial expressions were highly aligned and confident."⟩,
    ⟨80, 8999/100, "Excellent",
      "Excellent non-verbal communication. You demonstrated strong vocal control and positive facial cues."⟩,
    ⟨70, 7999/100, "Good",
      "Good performance. Minor improvements in either vocal tone or facial expression could elevate your delivery."⟩,
    ⟨60, 6999/100, "Satisfactory",
      "Satisfactory performance. Consider practicing a more steady tone and maintaining natural facial expressions."⟩,
    ⟨50, 5999/100, "Needs Improvement",
      "Your delivery needs improvement. Focus on projecting confidence through your voice and keeping consistent eye contact."⟩,
    ⟨0, 4999/100, "Poor",
      "Try to maintain better eye contact and a steady voice. Practice speaking clearly and keeping a calm, composed facial expression."⟩ ]

/-- Whether a rule's range matches a score: `rule["min"] <= score <= rule["max"]`. -/
def ruleMatches (score : ℚ) (r : FeedbackRule) : Prop :=
  r.min ≤ score ∧ score ≤ r.max

instance (score : ℚ) (r : FeedbackRule) : Decidable (ruleMatches score r) :=
  inferInstanceAs (Decidable (_ ∧ _))

/-- `FusionEngine._get_feedback`: first matching rule's `(label, feedback)`,
with the `"Unknown"` fallback when no rule matches. -/
def getFeedback (score : ℚ) : String × String :=
  match FEEDBACK_RULES.find? (fun r => decide (ruleMatches score r)) with
  | some r => (r.label, r.feedback)
  | none => ("Unknown", "Unable to determine feedback for this score.")

/-- `_NEGATIVE_FACE` set literal of `_build_emotion_summary`. -/
def NEGATIVE_FACE : List String :=
  ["nervous", "angry", "sad", "fear", "disgust", "anxious", "confused", "frustrated"]

/-- `_NEGATIVE_VOICE` set literal of `_build_emotion_summary`. -/
def NEGATIVE_VOICE : List String :=
  ["nervous", "angry", "sad", "fear", "anxious", "monotone", "hesitant"]

/-- `FusionEngine._build_emotion_summary`: `"but"` when the two
membership booleans differ (`face_is_negative != voice_is_negative`),
`"and"` otherwise. -/
def buildEmotionSummary (voice_emotion face_emotion : String) : String :=
  let face_is_negative : Bool := decide (pyLower face_emotion ∈ NEGATIVE_FACE)
  let voice_is_negative : Bool := decide (pyLower voice_emotion ∈ NEGATIVE_VOICE)
  let conjunction := if face_is_negative != voice_is_negative then "but" else "and"
  "Your tone was " ++ voice_emotion ++ ", " ++ conjunction ++
    " your facial expression appeared " ++ face_emotion ++ "."

/-- The spec's description of the per-modality score entering the fusion
formula, written from the spec's words for comparison with `extract`: a
missing (`None`) input contributes score 0, an absent `"score"` key
defaults to 0, and a non-numeric score is coerced to 0. -/
def specFusionScore : Option FusionData → ℚ
  | none => 0
  | some d =>
    match d.score with
    | some (.num q) => q
    | some .nonNumeric => 0
    | none => 0

/-- The result dict of `fuse_scores`. -/
structure FusionResult where
  final_score : ℚ
  label : String
  feedback : String
  voice_emotion : String
  face_emotion : String
  emotion_summary : String
deriving DecidableEq

/-- `FusionEngine.fuse_scores`: weighted fusion of voice and face data
into a behavioural score with label, feedback and emotion summary. -/
def fuse_scores (voice_data face_data : Option FusionData) : FusionResult :=
  let ve := extract voice_data
  let fe := extract face_data
  let raw_score := VOICE_WEIGHT * ve.1 + FACE_WEIGHT * fe.1
  let final_score := round2 (min (max raw_score 0) 100)
  let lf := getFeedback final_score
  { final_score := final_score
    label := lf.1
    feedback := lf.2
    voice_emotion := ve.2
    face_emotion := fe.2
    emotion_summary := buildEmotionSummary ve.2 fe.2 }

end FusionEngine

/-! ## Facial expression model (`Facial_AI_Module.py`) -/

namespace Facial

/-- A Python dict of emotion-label → probability-like value, as produced by
DeepFace, modelled as an association list with distinct keys (dict keys are
unique; lookup takes the first binding). -/
abbrev EmotionDistribution := List (String × ℚ)

/-- `d.get(k, 0.0)` on an emotion dict. -/
def getEmotion (d : EmotionDistribution) (k : String) : ℚ :=
  (d.lookup k).getD 0

/-- The `{confidence, nervousness, engagement}` dict returned by
`_compute_interview_metrics`. -/
structure InterviewMetrics where
  confidence : ℚ
  nervousness : ℚ
  engagement : ℚ
deriving DecidableEq

/-- `FacialExpressionModel._compute_interview_metrics`: derive
confidence / nervousness / engagement from raw emotion probabilities,
the eye-contact score and the face-presence flag. -/
def computeInterviewMetrics (all_emotions : EmotionDistribution)
    (eye_contact_score : ℚ) (is_face_present : Bool) : InterviewMetrics :=
  -- `if not is_face_present or not all_emotions:` (empty dict is falsy)
  if !is_face_present || all_emotions.isEmpty then
    ⟨0, 0, 0⟩
  else
    let happy := getEmotion all_emotions "happy"
    let neutral := getEmotion all_emotions "neutral"
    let surprise := getEmotion all_emotions "surprise"
    let angry := getEmotion all_emotions "angry"
    let disgust := getEmotion all_emotions "disgust"
    let sad := getEmotion all_emotions "sad"
    let fear := getEmotion all_emotions "fear"
    let confidence := clamp (happy * 1 + neutral * (65/100) + surprise * (40/100)
      + angry * (25/100) + disgust * (15/100) + sad * (10/100) + fear * (5/100)) 0 100
    let nervousness := clamp (fear * 1 + sad * (70/100) + surprise * (50/100)
      + disgust * (40/100) + angry * (30/100) + neutral * (10/100) + happy * 0) 0 100
    let emotion_activity := 100 - neutral
    let engagement := clamp ((50/100) * eye_contact_score + (30/100) * emotion_activity
      + (20/100) * (if is_face_present then 100 else 0)) 0 100
    ⟨round1 confidence, round1 nervousness, round1 engagement⟩

/-- First pair of maximal second component in a list, keeping the earliest
pair on ties — the behaviour of `np.argmax` over the count array. -/
def firstArgmax : List (String × ℕ) → Option (String × ℕ)
  | [] => none
  | x :: xs =>
    match firstArgmax xs with
    | none => some x
    | some y => if y.2 > x.2 then some y else some x

/-- Sorted unique labels of a list — the behaviour of `np.unique` on an
array of strings (ascending lexicographic order, duplicates removed). -/
def npUnique (l : List String) : List String :=
  (l.dedup).insertionSort (· ≤ ·)

/-- `FacialExpressionModel._get_most_common_emotion`: `None` on an empty
history, else `unique[np.argmax(counts)]` over
`np.unique(history, return_counts=True)`. -/
def mostCommonEmotion (history : List String) : Option String :=
  if history.isEmpty then none
  else (firstArgmax ((npUnique history).map (fun u => (u, history.count u)))).map Prod.fst

/-- The `self._session` accumulator dict (`_init_session`). -/
structure Session where
  start_time : ℚ
  confidence : List ℚ
  nervousness : List ℚ
  engagement : List ℚ
  eye_contact : List ℚ
  emotions : List String
  face_present_count : ℕ
  total_analyzed : ℕ
deriving DecidableEq

/-- `FacialExpressionModel._init_session` at clock reading `now`. -/
def initSession (now : ℚ) : Session :=
  { start_time := now, confidence := [], nervousness := [], engagement := []
    eye_contact := [], emotions := [], face_present_count := 0, total_analyzed := 0 }

/-- Mutable state of a `FacialExpressionModel` instance: the rolling
emotion-history deque (most recent last), its capacity, the frame counter
and the session accumulator. -/
structure ModelState where
  history_size : ℕ
  emotion_history : List String
  frame_count : ℕ
  session : Session
deriving DecidableEq

/-- A fresh `FacialExpressionModel(history_size)` constructed at clock
reading `now` (cascade loading and model warm-up are I/O with no effect on
the scoring state). -/
def initModel (history_size : ℕ) (now : ℚ) : ModelState :=
  { history_size := history_size, emotion_history := [], frame_count := 0
    session := initSession now }

/-- `deque(maxlen
 = n).append(x)`: append, evicting the oldest entry when the
buffer is full. -/
def dequeAppend (maxlen : ℕ) (buf : List String) (x : String) : List String :=
  let b := buf ++ [x]
  if maxlen < b.length then b.drop (b.length - maxlen) else b

/-- What the external DeepFace call returned for one frame: the emotion
dict, the dominant label, and the width/height of the detected region
(`region.get("w", 0)`, `region.get("h", 0)`). -/
structure DeepFaceData where
  emotions : EmotionDistribution
  dominant : String
  regionW : ℤ
  regionH : ℤ
deriving DecidableEq

/-- The externally-determined outcome of analysing one frame:
`eyeResult = none` models `_detect_eye_contact` raising (caught → 0.0),
`deepface = none` models `DeepFace.analyze` raising (caught → error path). -/
structure FrameObs where
  eyeResult : Option ℚ
  deepface : Option DeepFaceData
deriving DecidableEq

/-- Whether the source's face-present test fires for an observation:
DeepFace succeeded and returned a region with `w > 0 and h > 0`. -/
def facePresent (o : FrameObs) : Bool :=
  match o.deepface with
  | some fd => decide (0 < fd.regionW) && decide (0 < fd.regionH)
  | none => false

/-- The result dict of `analyze_frame` (the `face_coordinates` x/y offsets
and the textual error message carry no scoring information and are
omitted). -/
structure FrameResult where
  success : Bool
  emotion : String
  raw_emotion : String
  confidence : ℚ
  facial_score : ℚ
  eye_contact_score : ℚ
  is_face_present : Bool
  all_emotions : EmotionDistribution
  interview_metrics : InterviewMetrics
deriving DecidableEq

/-- The local variables of `analyze_frame` after step 2 (the DeepFace
try/except block): face presence, labels, confidence, the emotion dict,
the possibly-reset eye score and the possibly-extended history deque. -/
structure AnalysisMid where
  present : Bool
  emotion : String
  raw : String
  conf : ℚ
  all : EmotionDistribution
  success : Bool
  eye : ℚ
  hist : List String

/-- `FacialExpressionModel.analyze_frame`, with the external detector
outcomes supplied as `obs`: updates the frame counter, the emotion-history
deque and the session accumulator, and returns the per-frame result. -/
def analyzeFrame (st : ModelState) (obs : FrameObs) : ModelState × FrameResult :=
  let frame_count := st.frame_count + 1
  -- step 1: eye contact, exceptions caught to 0.0
  let eye0 : ℚ := obs.eyeResult.getD 0
  -- step 2: DeepFace emotion analysis
  let r : AnalysisMid :=
    match obs.deepface with
    | some fd =>
      let conf := getEmotion fd.emotions fd.dominant
      if 0 < fd.regionW ∧ 0 < fd.regionH then
        { present := true, emotion := fd.dominant, raw := fd.dominant
          conf := round2 conf, all := fd.emotions, success := true
          eye := eye0, hist := dequeAppend st.history_size st.emotion_history fd.dominant }
      else
        { present := false, emotion := "neutral", raw := "neutral", conf := 0
          all := ([] : EmotionDistribution), success := false, eye := eye0
          hist := st.emotion_history }
    | none =>
      -- exception path: face absent, eye score reset to 0
      { present := false, emotion := "neutral", raw := "neutral", conf := 0
        all := ([] : EmotionDistribution), success := false, eye := 0
        hist := st.emotion_history }
  -- step 3: stabilised emotion (a returned label is a non-empty, hence
  -- truthy, Python string)
  let emotion :=
    match mostCommonEmotion r.hist with
    | some s => if r.present then s else r.emotion
    | none => r.emotion
  -- step 4: interview metrics
  let metrics := computeInterviewMetrics r.all r.eye r.present
  -- step 5: session tracking
  let s := st.session
  let s := { s with total_analyzed := s.total_analyzed + 1 }
  let s :=
    if r.present then
      { s with
        face_present_count := s.face_present_count + 1
        confidence := s.confidence ++ [metrics.confidence]
        nervousness := s.nervousness ++ [metrics.nervousness]
        engagement := s.engagement ++ [metrics.engagement]
        eye_contact := s.eye_contact ++ [r.eye]
        emotions := s.emotions ++ [emotion] }
    else s
  (⟨st.history_size, r.hist, frame_count, s⟩,
   { success := r.success, emotion := emotion, raw_emotion := r.raw
     confidence := r.conf, facial_score := r.conf, eye_contact_score := r.eye
     is_face_present := r.present, all_emotions := r.all
     interview_metrics := metrics })

/-- Run `analyze_frame` over a sequence of frame observations. -/
def runFrames (st : ModelState) (obs : List FrameObs) : ModelState :=
  obs.foldl (fun s o => (analyzeFrame s o).1) st

/-- The per-metric threshold tables of `FacialExpressionModel._qualitative`
(`templates.get(metric, [])`). -/
def qualitativeTemplates (metric : String) : List (ℚ × String) :=
  if metric = "confidence" then
    [ (80, "Excellent confidence! You appeared very self-assured and composed throughout."),
      (60, "Good confidence level. You appeared fairly confident most of the time."),
      (40, "Moderate confidence. Try to maintain a calm, positive expression."),
      (0,  "Low confidence detected. Practice maintaining a relaxed, positive demeanour.") ]
  else if metric = "nervousness" then
    [ (60, "High nervousness detected. Consider deep-breathing exercises before interviews."),
      (40, "Moderate nervousness. You showed some signs of discomfort — practice can help."),
      (20, "Slight nervousness, but mostly calm. Well managed overall."),
      (0,  "Very calm and composed. Minimal signs of nervousness — great job!") ]
  else if metric = "engagement" then
    [ (80, "Excellent engagement! You were expressive and attentive throughout."),
      (60, "Good engagement. You showed interest and stayed mostly attentive."),
      (40, "Moderate engagement. Try to show more interest through expressions."),
      (0,  "Low engagement detected. Work on being more expressive and maintaining attention.") ]
  else if metric = "eye_contact" then
    [ (80, "Great eye contact! You maintained a strong connection with the camera."),
      (60, "Good eye contact overall, with occasional glances away."),
      (40, "Moderate eye contact. Try to look at the camera more consistently."),
      (0,  "Low eye contact. Practice looking directly at the camera during responses.") ]
  else if metric = "overall" then
    [ (80, "Outstanding performance! You demonstrated strong interview presence."),
      (60, "Good performance overall. A few areas to polish for perfection."),
      (40, "Fair performance. Focused practice on the weaker areas will help a lot."),
      (0,  "Needs improvement. Review each metric and practice targeted exercises.") ]
  else []

/-- `FacialExpressionModel._qualitative`: first template whose threshold the
score reaches, else the empty string. -/
def qualitative (metric : String) (score : ℚ) : String :=
  match (qualitativeTemplates metric).find? (fun t => decide (t.1 ≤ score)) with
  | some t => t.2
  | none => ""

/-- `np.mean(lst) if lst else 0.0` (the `_avg` closure of
`get_session_feedback`). -/
def listAvg (l : List ℚ) : ℚ :=
  if l.isEmpty then 0 else l.sum / l.length

/-- The emotion-frequency dict of `get_session_feedback`
(`np.unique(arr, return_counts=True)` zipped into a dict, so sorted by
label). -/
def emotionDistOf (emotions : List String) : List (String × ℕ) :=
  if emotions.isEmpty then []
  else (npUnique emotions).map (fun u => (u, emotions.count u))

/-- The report dict returned by `get_session_feedback` on a non-empty
session. -/
structure SessionReport where
  duration_seconds : ℚ
  total_frames_analyzed : ℕ
  face_presence_rate : ℚ
  avg_confidence : ℚ
  avg_nervousness : ℚ
  avg_engagement : ℚ
  avg_eye_contact : ℚ
  overall_score : ℚ
  emotion_distribution : List (String × ℕ)
  confidence_feedback : String
  nervousness_feedback : String
  engagement_feedback : String
  eye_contact_feedback : String
  overall_feedback : String
deriving DecidableEq

/-- `FacialExpressionModel.get_session_feedback` at clock reading `now`:
either the empty-session error dict or the full report. -/
def getSessionFeedback (s : Session) (now : ℚ) : Except String SessionReport :=
  if s.total_analyzed = 0 then
    .error "No frames were analyzed during this session."
  else
    let duration := now - s.start_time
    let face_rate := ((s.face_present_count : ℚ) / (s.total_analyzed : ℚ)) * 100
    let avg_conf := round1 (listAvg s.confidence)
    let avg_nerv := round1 (listAvg s.nervousness)
    let avg_eng := round1 (listAvg s.engagement)
    let avg_eye := round1 (listAvg s.eye_contact)
    let overall := round1 (avg_conf * (30/100) + (100 - avg_nerv) * (25/100)
      + avg_eng * (25/100) + avg_eye * (20/100))
    .ok
      { duration_seconds := round1 duration
        total_frames_analyzed := s.total_analyzed
        face_presence_rate := round1 face_rate
        avg_confidence := avg_conf
        avg_nervousness := avg_nerv
        avg_engagement := avg_eng
        avg_eye_contact := avg_eye
        overall_score := overall
        emotion_distribution := emotionDistOf s.emotions
        confidence_feedback := qualitative "confidence" avg_conf
        nervousness_feedback := qualitative "nervousness" avg_nerv
        engagement_feedback := qualitative "engagement" avg_eng
        eye_contact_feedback := qualitative "eye_contact" avg_eye
        overall_feedback := qualitative "overall" overall }

/-- Erase the only clock-dependent field of a report, for comparing two
reductions of the same session taken at different instants. -/
def eraseDuration : Except String SessionReport → Except String SessionReport
  | .error e => .error e
  | .ok r => .ok { r with duration_seconds := 0 }

/-- A frame observation with a detected face (DeepFace succeeded with a
positive-area region). -/
def faceFrame : FrameObs :=
  { eyeResult := some 100
    deepface := some { emotions := [("happy", 60), ("neutral", 40)]
                       dominant := "happy", regionW := 120, regionH := 120 } }

/-- A frame observation with no face (DeepFace succeeded but returned a
zero-area region). -/
def noFaceFrame : FrameObs :=
  { eyeResult := some 0
    deepface := some { emotions := [("neutral", 100)]
                       dominant := "neutral", regionW := 0, regionH := 0 } }

/-- Ten concrete frames, four of which have no face. -/
def sampleFrames : List FrameObs :=
  [faceFrame, faceFrame, noFaceFrame, faceFrame, noFaceFrame,
   faceFrame, noFaceFrame, faceFrame, faceFrame, noFaceFrame]

end Facial

/-! ## Vocal analysis short-clip guard (`vocal_analysis.py`) -/

namespace Vocal

/-- A raised Python exception reaching the caller of `analyze_tone`. -/
inductive PyExc where
  | valueError (msg : String)
  | runtimeError (msg : String)
  | fileNotFoundError (msg : String)
deriving DecidableEq

/-- `str(e)` of a modelled exception. -/
def PyExc.msg : PyExc → String
  | .valueError m => m
  | .runtimeError m => m
  | .fileNotFoundError m => m

/-- The duration check opening `_extract_signal_features`:
`duration = len(y) / sr`, raising `ValueError` below half a second.  The
librosa-computed feature values themselves are external signal statistics
and are abstracted as the oracle value `librosaOut`. -/
def extractSignalFeatures {α : Type} (numSamples sampleRate : ℕ)
    (librosaOut : α) : Except PyExc α :=
  if (numSamples : ℚ) / (sampleRate : ℚ) < 1/2 then
    .error (.valueError "Audio is too short (< 0.5 s) for meaningful analysis.")
  else
    .ok librosaOut

/-- Control-flow skeleton of `VocalToneAnalyzer.analyze_tone`: the missing
file check, the signal-feature extraction with its duration guard, and the
`except Exception` clause that wraps any failure in a `RuntimeError`.  The
Wav2Vec2 deep features, the sub-score formulas and the feedback generation
run strictly after the guard and are abstracted as the total continuation
`restOfAnalysis`. -/
def analyzeTone {α β : Type} (fileExists : Bool) (numSamples sampleRate : ℕ)
    (librosaOut : α) (restOfAnalysis : α → β) : Except PyExc β :=
  if !fileExists then
    .error (.fileNotFoundError "Audio file not found")
  else
    match extractSignalFeatures numSamples sampleRate librosaOut with
    | .error e => .error (.runtimeError ("Audio analysis failed: " ++ e.msg))
    | .ok f => .ok (restOfAnalysis f)

end Vocal

/-! ## Claim theorems -/

namespace FusionEngine

/-- C1: for every pair of fusion inputs, with a missing (`None`) side
defaulting to score 0 and a non-numeric score coerced to 0, `fuse_scores`
returns `final_score` equal to 0.6 times the voice score plus 0.4 times
the face score, clamped to `[0,100]` and rounded to 2 decimals; in
particular fusing scores 85 and 60 gives 75.0 and fusing two missing
inputs gives 0.0. -/
theorem C1_fuse_scores_weighted_clamped_rounded :
    (∀ voice_data face_data : Option FusionData,
      (fuse_scores voice_data face_data).final_score =
        round2 (clamp ((6/10) * specFusionScore voice_data
          + (4/10) * specFusionScore face_data) 0 100))
    ∧ (fuse_scores (some ⟨some (.num 85), some "Confident"⟩)
        (some ⟨some (.num 60), some "Neutral"⟩)).final_score = 75
    ∧ (fuse_scores none none).final_score = 0 := by
  refine ⟨fun v f => ?_, ?_, ?_⟩
  · rcases v with _ | ⟨_ | (q | _), ve⟩ <;> rcases f with _ | ⟨_ | (p | _), fe⟩ <;> rfl
  · norm_num [fuse_scores, extract, round2, roundHalfEven, clamp,
      VOICE_WEIGHT, FACE_WEIGHT, min_def, max_def]
  · norm_num [fuse_scores, extract, round2, roundHalfEven, clamp,
      VOICE_WEIGHT, FACE_WEIGHT, min_def, max_def]

/-- C3 counterexample: the score 89.995 lies in `[0,100]` but falls in the
gap between the "Excellent" range (upper bound 89.99) and the
"Outstanding" range (lower bound 90): no rule matches it, and
`_get_feedback` returns its "Unknown" fallback. -/
theorem C3_counterexample_gap_between_ranges :
    ((0 : ℚ) ≤ 17999/200 ∧ (17999/200 : ℚ) ≤ 100) ∧
    FEEDBACK_RULES.countP (fun r => decide (ruleMatches (17999/200) r)) = 0 ∧
    getFeedback (17999/200) =
      ("Unknown", "Unable to determine feedback for this score.") := by
  refine ⟨by norm_num, ?_, ?_⟩
  · norm_num [FEEDBACK_RULES, ruleMatches, List.countP_cons, List.countP_nil]
  · norm_num [getFeedback, FEEDBACK_RULES, ruleMatches, List.find?]

/-- C3 (amended): for every score in `[0,100]` expressible with at most
two decimal places — in particular every `final_score` that `fuse_scores`
can produce, since it rounds to 2 decimals — exactly one of the six
feedback ranges matches and `_get_feedback` never returns its "Unknown"
fallback.  (Between consecutive ranges, e.g. `(89.99, 90)`, there are gaps
that only scores with three or more decimals can hit.) -/
theorem C3_two_decimal_scores_match_exactly_one_rule (k : ℕ) (hk : k ≤ 10000) :
    FEEDBACK_RULES.countP (fun r => decide (ruleMatches ((k : ℚ)/100) r)) = 1 ∧
    (getFeedback ((k : ℚ)/100)).1 ≠ "Unknown" := by
  have h100 : (0:ℚ) < 100 := by norm_num
  have e1 : ((90:ℚ) ≤ (k:ℚ)/100 ∧ (k:ℚ)/100 ≤ 100) ↔ (9000 ≤ k ∧ k ≤ 10000) := by
    rw [le_div_iff₀ h100, div_le_iff₀ h100]; norm_cast
  have e2 : ((80:ℚ) ≤ (k:ℚ)/100 ∧ (k:ℚ)/100 ≤ 8999/100) ↔ (8000 ≤ k ∧ k ≤ 8999) := by
    rw [le_div_iff₀ h100, div_le_div_iff₀ h100 h100]; norm_cast; omega
  have e3 : ((70:ℚ) ≤ (k:ℚ)/100 ∧ (k:ℚ)/100 ≤ 7999/100) ↔ (7000 ≤ k ∧ k ≤ 7999) := by
    rw [le_div_iff₀ h100, div_le_div_iff₀ h100 h100]; norm_cast; omega
  have e4 : ((60:ℚ) ≤ (k:ℚ)/100 ∧ (k:ℚ)/100 ≤ 6999/100) ↔ (6000 ≤ k ∧ k ≤ 6999) := by
    rw [le_div_iff₀ h100, div_le_div_iff₀ h100 h100]; norm_cast; omega
  have e5 : ((50:ℚ) ≤ (k:ℚ)/100 ∧ (k:ℚ)/100 ≤ 5999/100) ↔ (5000 ≤ k ∧ k ≤ 5999) := by
    rw [le_div_iff₀ h100, div_le_div_iff₀ h100 h100]; norm_cast; omega
  have e6 : ((0:ℚ) ≤ (k:ℚ)/100 ∧ (k:ℚ)/100 ≤ 4999/100) ↔ (k ≤ 4999) := by
    rw [le_div_iff₀ h100, div_le_div_iff₀ h100 h100]; norm_cast; omega
  have hcase : k ≤ 4999 ∨ (5000 ≤ k ∧ k ≤ 5999) ∨ (6000 ≤ k ∧ k ≤ 6999) ∨
      (7000 ≤ k ∧ k ≤ 7999) ∨ (8000 ≤ k ∧ k ≤ 8999) ∨ (9000 ≤ k ∧ k ≤ 10000) := by
    omega
  rcases hcase with hr | hr | hr | hr | hr | hr
  · have p1 : ¬((90:ℚ) ≤ (k:ℚ)/100 ∧ (k:ℚ)/100 ≤ 100) := by rw [e1]; omega
    have p2 : ¬((80:ℚ) ≤ (k:ℚ)/100 ∧ (k:ℚ)/100 ≤ 8999/100) := by rw [e2]; omega
    have p3 : ¬((70:ℚ) ≤ (k:ℚ)/100 ∧ (k:ℚ)/100 ≤ 7999/100) := by rw [e3]; omega
    have p4 : ¬((60:ℚ) ≤ (k:ℚ)/100 ∧ (k:ℚ)/100 ≤ 6999/100) := by rw [e4]; omega
    have p5 : ¬((50:ℚ) ≤ (k:ℚ)/100 ∧ (k:ℚ)/100 ≤ 5999/100) := by rw [e5]; omega
    have p6 : ((0:ℚ) ≤ (k:ℚ)/100 ∧ (k:ℚ)/100 ≤ 4999/100) := by rw [e6]; omega
    exact ⟨by simp [FEEDBACK_RULES, ruleMatches, List.countP_cons, List.countP_nil,
        p1, p2, p3, p4, p5, p6],
      by simp [getFeedback, FEEDBACK_RULES, ruleMatches, List.find?, p1, p2, p3, p4, p5, p6]⟩
  · have p1 : ¬((90:ℚ) ≤ (k:ℚ)/100 ∧ (k:ℚ)/100 ≤ 100) := by rw [e1]; omega
    have p2 : ¬((80:ℚ) ≤ (k:ℚ)/100 ∧ (k:ℚ)/100 ≤ 8999/100) := by rw [e2]; omega
    have p3 : ¬((70:ℚ) ≤ (k:ℚ)/100 ∧ (k:ℚ)/100 ≤ 7999/100) := by rw [e3]; omega
    have p4 : ¬((60:ℚ) ≤ (k:ℚ)/100 ∧ (k:ℚ)/100 ≤ 6999/100) := by rw [e4]; omega
    have p5 : ((50:ℚ) ≤ (k:ℚ)/100 ∧ (k:ℚ)/100 ≤ 5999/100) := by rw [e5]; omega
    have p6 : ¬((0:ℚ) ≤ (k:ℚ)/100 ∧ (k:ℚ)/100 ≤ 4999/100) := by rw [e6]; omega
    exact ⟨by simp [FEEDBACK_RULES, ruleMatches, List.countP_cons, List.countP_nil,
        p1, p2, p3, p4, p5, p6],
      by simp [getFeedback, FEEDBACK_RULES, ruleMatches, List.find?, p1, p2, p3, p4, p5, p6]⟩
  · have p1 : ¬((90:ℚ) ≤ (k:ℚ)/100 ∧ (k:ℚ)/100 ≤ 100) := by rw [e1]; omega
    have p2 : ¬((80:ℚ) ≤ (k:ℚ)/100 ∧ (k:ℚ)/100 ≤ 8999/100) := by rw [e2]; omega
    have p3 : ¬((70:ℚ) ≤ (k:ℚ)/100 ∧ (k:ℚ)/100 ≤ 7999/100) := by rw [e3]; omega
    have p4 : ((60:ℚ) ≤ (k:ℚ)/100 ∧ (k:ℚ)/100 ≤ 6999/100) := by rw [e4]; omega
    have p5 : ¬((50:ℚ) ≤ (k:ℚ)/100 ∧ (k:ℚ)/100 ≤ 5999/100) := by rw [e5]; omega
    have p6 : ¬((0:ℚ) ≤ (k:ℚ)/100 ∧ (k:ℚ)/100 ≤ 4999/100) := by rw [e6]; omega
    exact ⟨by simp [FEEDBACK_RULES, ruleMatches, List.countP_cons, List.countP_nil,
        p1, p2, p3, p4, p5, p6],
      by simp [getFeedback, FEEDBACK_RULES, ruleMatches, List.find?, p1, p2, p3, p4, p5, p6]⟩
  · have p1 : ¬((90:ℚ) ≤ (k:ℚ)/100 ∧ (k:ℚ)/100 ≤ 100) := by rw [e1]; omega
    have p2 : ¬((80:ℚ) ≤ (k:ℚ)/100 ∧ (k:ℚ)/100 ≤ 8999/100) := by rw [e2]; omega
    have p3 : ((70:ℚ) ≤ (k:ℚ)/100 ∧ (k:ℚ)/100 ≤ 7999/100) := by rw [e3]; omega
    have p4 : ¬((60:ℚ) ≤ (k:ℚ)/100 ∧ (k:ℚ)/100 ≤ 6999/100) := by rw [e4]; omega
    have p5 : ¬((50:ℚ) ≤ (k:ℚ)/100 ∧ (k:ℚ)/100 ≤ 5999/100) := by rw [e5]; omega
    have p6 : ¬((0:ℚ) ≤ (k:ℚ)/100 ∧ (k:ℚ)/100 ≤ 4999/100) := by rw [e6]; omega
    exact ⟨by simp [FEEDBACK_RULES, ruleMatches, List.countP_cons, List.countP_nil,
        p1, p2, p3, p4, p5, p6],
      by simp [getFeedback, FEEDBACK_RULES, ruleMatches, List.find?, p1, p2, p3, p4, p5, p6]⟩
  · have p1 : ¬((90:ℚ) ≤ (k:ℚ)/100 ∧ (k:ℚ)/100 ≤ 100) := by rw [e1]; omega
    have p2 : ((80:ℚ) ≤ (k:ℚ)/100 ∧ (k:ℚ)/100 ≤ 8999/100) := by rw [e2]; omega
    have p3 : ¬((70:ℚ) ≤ (k:ℚ)/100 ∧ (k:ℚ)/100 ≤ 7999/100) := by rw [e3]; omega
    have p4 : ¬((60:ℚ) ≤ (k:ℚ)/100 ∧ (k:ℚ)/100 ≤ 6999/100) := by rw [e4]; omega
    have p5 : ¬((50:ℚ) ≤ (k:ℚ)/100 ∧ (k:ℚ)/100 ≤ 5999/100) := by rw [e5]; omega
    have p6 : ¬((0:ℚ) ≤ (k:ℚ)/100 ∧ (k:ℚ)/100 ≤ 4999/100) := by rw [e6]; omega
    exact ⟨by simp [FEEDBACK_RULES, ruleMatches, List.countP_cons, List.countP_nil,
        p1, p2, p3, p4, p5, p6],
      by simp [getFeedback, FEEDBACK_RULES, ruleMatches, List.find?, p1, p2, p3, p4, p5, p6]⟩
  · have p1 : ((90:ℚ) ≤ (k:ℚ)/100 ∧ (k:ℚ)/100 ≤ 100) := by rw [e1]; omega
    have p2 : ¬((80:ℚ) ≤ (k:ℚ)/100 ∧ (k:ℚ)/100 ≤ 8999/100) := by rw [e2]; omega
    have p3 : ¬((70:ℚ) ≤ (k:ℚ)/100 ∧ (k:ℚ)/100 ≤ 7999/100) := by rw [e3]; omega
    have p4 : ¬((60:ℚ) ≤ (k:ℚ)/100 ∧ (k:ℚ)/100 ≤ 6999/100) := by rw [e4]; omega
    have p5 : ¬((50:ℚ) ≤ (k:ℚ)/100 ∧ (k:ℚ)/100 ≤ 5999/100) := by rw [e5]; omega
    have p6 : ¬((0:ℚ) ≤ (k:ℚ)/100 ∧ (k:ℚ)/100 ≤ 4999/100) := by rw [e6]; omega
    exact ⟨by simp [FEEDBACK_RULES, ruleMatches, List.countP_cons, List.countP_nil,
        p1, p2, p3, p4, p5, p6],
      by simp [getFeedback, FEEDBACK_RULES, ruleMatches, List.find?, p1, p2, p3, p4, p5, p6]⟩

/-- C3 witness: the two-decimal score 75.50 matches exactly one range and
gets a real label. -/
theorem C3_witness :
    (7550 : ℕ) ≤ 10000 ∧
    (FEEDBACK_RULES.countP
        (fun r => decide (ruleMatches (((7550 : ℕ) : ℚ)/100) r)) = 1 ∧
      (getFeedback (((7550 : ℕ) : ℚ)/100)).1 ≠ "Unknown") :=
  ⟨by norm_num, C3_two_decimal_scores_match_exactly_one_rule 7550 (by norm_num)⟩

/-- Concatenation with a fixed prefix and suffix is injective in the
middle piece: used to tell the "but" sentence from the "and" sentence. -/
lemma summary_conjunction_inj (v f c₁ c₂ : String)
    (h : "Your tone was " ++ v ++ ", " ++ c₁ ++ " your facial expression appeared " ++ f ++ "." =
         "Your tone was " ++ v ++ ", " ++ c₂ ++ " your facial expression appeared " ++ f ++ ".") :
    c₁ = c₂ := by
  have hd := congrArg String.data h
  simp only [String.data_append, List.append_assoc] at hd
  exact String.ext
    (List.append_cancel_right
      (List.append_cancel_left (List.append_cancel_left (List.append_cancel_left hd))))

/-- The "but" form of the summary sentence is never equal to the "and"
form, whatever the two emotion labels are. -/
lemma summary_but_ne_and (v f : String) :
    "Your tone was " ++ v ++ ", " ++ "but" ++ " your facial expression appeared " ++ f ++ "." ≠
      "Your tone was " ++ v ++ ", " ++ "and" ++ " your facial expression appeared " ++ f ++ "." :=
  fun h => absurd (summary_conjunction_inj v f "but" "and" h) (by decide)

/-- C9: the emotion summary uses the conjunction "but" exactly when one of
the two labels is in its modality's negative set (compared
case-insensitively) and the other is not — an XOR over set membership, not
an equality test — and uses "and" otherwise; in particular voice
"Confident" with face "Nervous" produces "but", and voice "Confident" with
face "Neutral" produces "and". -/
theorem C9_emotion_summary_xor_conjunction :
    (∀ v f : String,
      (buildEmotionSummary v f =
          "Your tone was " ++ v ++ ", " ++ "but" ++ " your facial expression appeared " ++ f ++ "." ↔
        ((pyLower v ∈ NEGATIVE_VOICE ∧ pyLower f ∉ NEGATIVE_FACE) ∨
         (pyLower v ∉ NEGATIVE_VOICE ∧ pyLower f ∈ NEGATIVE_FACE))) ∧
      (buildEmotionSummary v f =
          "Your tone was " ++ v ++ ", " ++ "and" ++ " your facial expression appeared " ++ f ++ "." ↔
        ¬((pyLower v ∈ NEGATIVE_VOICE ∧ pyLower f ∉ NEGATIVE_FACE) ∨
          (pyLower v ∉ NEGATIVE_VOICE ∧ pyLower f ∈ NEGATIVE_FACE))))
    ∧ buildEmotionSummary "Confident" "Nervous" =
        "Your tone was Confident, but your facial expression appeared Nervous."
    ∧ buildEmotionSummary "Confident" "Neutral" =
        "Your tone was Confident, and your facial expression appeared Neutral." := by
  refine ⟨fun v f => ?_, by decide, by decide⟩
  by_cases hv : pyLower v ∈ NEGATIVE_VOICE <;>
    by_cases hf : pyLower f ∈ NEGATIVE_FACE <;>
      simp [buildEmotionSummary, hv, hf, summary_but_ne_and v f,
        (summary_but_ne_and v f).symm]

end FusionEngine

/-- Rounding half-to-even never goes below a lower bound of 0. -/
lemma roundHalfEven_nonneg {q : ℚ} (h : 0 ≤ q) : 0 ≤ roundHalfEven q := by
  unfold roundHalfEven
  dsimp only
  have hf : (0 : ℤ) ≤ ⌊q⌋ := Int.floor_nonneg.mpr h
  split_ifs <;> omega

/-- Rounding half-to-even never exceeds an integer upper bound. -/
lemma roundHalfEven_le {q : ℚ} {n : ℤ} (h : q ≤ (n : ℚ)) : roundHalfEven q ≤ n := by
  unfold roundHalfEven
  dsimp only
  have hf : ⌊q⌋ ≤ n := by simpa using Int.floor_le_floor h
  split_ifs with h1 h2 h3
  · exact hf
  · have hr : (1 : ℚ)/2 ≤ q - ⌊q⌋ := not_lt.mp h1
    have hlt : (⌊q⌋ : ℚ) < (n : ℚ) := by linarith
    have : ⌊q⌋ < n := by exact_mod_cast hlt
    omega
  · exact hf
  · have hr : (1 : ℚ)/2 ≤ q - ⌊q⌋ := not_lt.mp h1
    have hlt : (⌊q⌋ : ℚ) < (n : ℚ) := by linarith
    have : ⌊q⌋ < n := by exact_mod_cast hlt
    omega

/-- Rounding to one decimal keeps a value of `[0,100]` inside `[0,100]`. -/
lemma round1_mem_Icc {q : ℚ} (h0 : 0 ≤ q) (h1 : q ≤ 100) :
    0 ≤ round1 q ∧ round1 q ≤ 100 := by
  unfold round1
  constructor
  · have hnn : (0 : ℤ) ≤ roundHalfEven (10 * q) :=
      roundHalfEven_nonneg (by linarith)
    have : (0 : ℚ) ≤ (roundHalfEven (10 * q) : ℚ) := by exact_mod_cast hnn
    positivity
  · have hub : roundHalfEven (10 * q) ≤ (1000 : ℤ) :=
      roundHalfEven_le (by push_cast; linarith)
    rw [div_le_iff₀ (by norm_num : (0 : ℚ) < 10)]
    calc (roundHalfEven (10 * q) : ℚ) ≤ 1000 := by exact_mod_cast hub
    _ = 100 * 10 := by norm_num

/-- Clamping to `[0,100]` lands in `[0,100]`. -/
lemma clamp_mem (x : ℚ) : 0 ≤ clamp x 0 100 ∧ clamp x 0 100 ≤ 100 :=
  ⟨le_min (le_max_right x 0) (by norm_num), min_le_right _ _⟩

namespace Facial

/-- `firstArgmax` returns `none` only on the empty list. -/
lemma firstArgmax_eq_none {l : List (String × ℕ)} :
    firstArgmax l = none ↔ l = [] := by
  cases l with
  | nil => simp [firstArgmax]
  | cons x xs =>
    simp only [firstArgmax, List.cons_ne_nil, iff_false]
    cases firstArgmax xs with
    | none => simp
    | some w => dsimp only; split <;> simp

/-- `firstArgmax` returns an element of the list. -/
lemma firstArgmax_mem (l : List (String × ℕ)) :
    ∀ y, firstArgmax l = some y → y ∈ l := by
  induction l with
  | nil => intro y h; simp [firstArgmax] at h
  | cons x xs ih =>
    intro y h
    simp only [firstArgmax] at h
    cases hfa : firstArgmax xs with
    | none =>
      simp only [hfa] at h
      obtain rfl : x = y := Option.some.inj h
      exact List.mem_cons_self _ _
    | some w =>
      simp only [hfa] at h
      by_cases hc : w.2 > x.2
      · rw [if_pos hc] at h
        obtain rfl : w = y := Option.some.inj h
        exact List.mem_cons_of_mem x (ih w hfa)
      · rw [if_neg hc] at h
        obtain rfl : x = y := Option.some.inj h
        exact List.mem_cons_self _ _

/-- `firstArgmax` returns a pair of maximal count. -/
lemma firstArgmax_ge (l : List (String × ℕ)) :
    ∀ y, firstArgmax l = some y → ∀ z ∈ l, z.2 ≤ y.2 := by
  induction l with
  | nil => intro y h; simp [firstArgmax] at h
  | cons x xs ih =>
    intro y h
    simp only [firstArgmax] at h
    cases hfa : firstArgmax xs with
    | none =>
      simp only [hfa] at h
      obtain rfl : x = y := Option.some.inj h
      have hxs : xs = [] := firstArgmax_eq_none.mp hfa
      subst hxs
      intro z hz
      rcases List.mem_cons.mp hz with rfl | hz
      · exact le_refl _
      · simp at hz
    | some w =>
      simp only [hfa] at h
      have hw := ih w hfa
      by_cases hc : w.2 > x.2
      · rw [if_pos hc] at h
        obtain rfl : w = y := Option.some.inj h
        intro z hz
        rcases List.mem_cons.mp hz with rfl | hz
        · omega
        · exact hw z hz
      · rw [if_neg hc] at h
        obtain rfl : x = y := Option.some.inj h
        intro z hz
        rcases List.mem_cons.mp hz with rfl | hz
        · exact le_refl _
        · have := hw z hz; omega

/-- On a list sorted by label, `firstArgmax` keeps the earliest — hence
smallest — label among pairs of maximal count. -/
lemma firstArgmax_first :
    ∀ (l : List (String × ℕ)), l.Pairwise (fun a b : String × ℕ => a.1 ≤ b.1) →
      ∀ y, firstArgmax l = some y → ∀ z ∈ l, y.2 ≤ z.2 → y.1 ≤ z.1 := by
  intro l
  induction l with
  | nil => intro _ y h; simp [firstArgmax] at h
  | cons x xs ih =>
    intro hs y h
    rcases List.pairwise_cons.mp hs with ⟨hx, hs'⟩
    simp only [firstArgmax] at h
    cases hfa : firstArgmax xs with
    | none =>
      simp only [hfa] at h
      obtain rfl : x = y := Option.some.inj h
      intro z hz _
      rcases List.mem_cons.mp hz with rfl | hz
      · exact le_refl _
      · exact hx z hz
    | some w =>
      simp only [hfa] at h
      by_cases hc : w.2 > x.2
      · rw [if_pos hc] at h
        obtain rfl : w = y := Option.some.inj h
        intro z hz hzy
        rcases List.mem_cons.mp hz with rfl | hz
        · omega
        · exact ih hs' w hfa z hz hzy
      · rw [if_neg hc] at h
        obtain rfl : x = y := Option.some.inj h
        intro z hz _
        rcases List.mem_cons.mp hz with rfl | hz
        · exact le_refl _
        · exact hx z hz

/-- Membership in `npUnique` is membership in the original list. -/
lemma mem_npUnique {a : String} {l : List String} :
    a ∈ npUnique l ↔ a ∈ l := by
  unfold npUnique
  rw [List.Perm.mem_iff (List.perm_insertionSort _ _)]
  exact List.mem_dedup

/-- `npUnique` produces a `≤`-sorted list of labels. -/
lemma npUnique_pairwise (l : List String) :
    (npUnique l).Pairwise (· ≤ ·) :=
  List.sorted_insertionSort _ _

/-- C8: whenever the emotion history is non-empty, the most-common query
returns a label of maximal occurrence count among the buffered entries,
ties broken by the lexicographically smallest such label (np.unique sorts,
np.argmax keeps the first maximum); a buffer `[A, A, B]` yields `A`; the
empty buffer yields `none`. -/
theorem C8_most_common_emotion_max_count_lex_ties (history : List String) :
    (history = [] → mostCommonEmotion history = none) ∧
    (history ≠ [] → ∃ l, mostCommonEmotion history = some l ∧ l ∈ history ∧
      (∀ x ∈ history, history.count x ≤ history.count l) ∧
      (∀ x ∈ history, history.count x = history.count l → l ≤ x)) ∧
    mostCommonEmotion ["A", "A", "B"] = some "A" := by
  refine ⟨fun h => by subst h; rfl, fun hne => ?_, ?_⟩
  · obtain ⟨y, hy⟩ :
        ∃ y, firstArgmax ((npUnique history).map
          (fun u => (u, history.count u))) = some y := by
      cases hfa : firstArgmax ((npUnique history).map
          (fun u => (u, history.count u))) with
      | none =>
        exfalso
        have hmap := firstArgmax_eq_none.mp hfa
        rcases List.exists_mem_of_ne_nil history hne with ⟨a, ha⟩
        have ha' : a ∈ npUnique history := mem_npUnique.mpr ha
        have : (a, history.count a) ∈
            (npUnique history).map (fun u => (u, history.count u)) :=
          List.mem_map_of_mem _ ha'
        rw [hmap] at this
        simp at this
      | some y => exact ⟨y, rfl⟩
    have hymem := firstArgmax_mem _ _ hy
    obtain ⟨u, hu_mem, hu_eq⟩ := List.mem_map.mp hymem
    subst hu_eq
    have hsorted : ((npUnique history).map
        (fun u => (u, history.count u))).Pairwise
          (fun a b : String × ℕ => a.1 ≤ b.1) :=
      List.Pairwise.map _ (fun a b hab => hab) (npUnique_pairwise history)
    refine ⟨u, ?_, mem_npUnique.mp hu_mem, ?_, ?_⟩
    · have hie : history.isEmpty = false := by
        cases history with
        | nil => exact absurd rfl hne
        | cons a t => rfl
      unfold mostCommonEmotion
      rw [hie]
      simp only [Bool.false_eq_true, if_false, hy, Option.map_some']
    · intro x hx
      have hxp : (x, history.count x) ∈
          (npUnique history).map (fun u => (u, history.count u)) :=
        List.mem_map_of_mem _ (mem_npUnique.mpr hx)
      have := firstArgmax_ge _ _ hy (x, history.count x) hxp
      simpa using this
    · intro x hx hcnt
      have hxp : (x, history.count x) ∈
          (npUnique history).map (fun u => (u, history.count u)) :=
        List.mem_map_of_mem _ (mem_npUnique.mpr hx)
      have := firstArgmax_first _ hsorted _ hy (x, history.count x) hxp
        (by simpa using le_of_eq hcnt.symm)
      simpa using this
  · have h1 : npUnique ["A", "A", "B"] = ["A", "B"] := by
      simp [npUnique, List.dedup, List.insertionSort, List.orderedInsert,
        List.pwFilter]
      decide
    unfold mostCommonEmotion
    rw [h1]
    rfl

/-- C7: for every emotion distribution (including adversarial ones with
arbitrarily large values), every eye-contact score and every face-present
flag, each of the three interview metrics lies in `[0,100]` after
clamping and rounding. -/
theorem C7_interview_metrics_bounded
    (d : EmotionDistribution) (eye : ℚ) (present : Bool) :
    (0 ≤ (computeInterviewMetrics d eye present).confidence ∧
      (computeInterviewMetrics d eye present).confidence ≤ 100) ∧
    (0 ≤ (computeInterviewMetrics d eye present).nervousness ∧
      (computeInterviewMetrics d eye present).nervousness ≤ 100) ∧
    (0 ≤ (computeInterviewMetrics d eye present).engagement ∧
      (computeInterviewMetrics d eye present).engagement ≤ 100) := by
  unfold computeInterviewMetrics
  split
  · norm_num
  · exact ⟨round1_mem_Icc (clamp_mem _).1 (clamp_mem _).2,
      round1_mem_Icc (clamp_mem _).1 (clamp_mem _).2,
      round1_mem_Icc (clamp_mem _).1 (clamp_mem _).2⟩

end Facial

namespace Facial

/-- C4: `_compute_interview_metrics` returns exactly zero confidence,
nervousness and engagement whenever the face-present flag is false or the
emotion distribution is empty, regardless of the distribution contents and
the eye-contact value. -/
theorem C4_no_face_or_empty_distribution_zeroes
    (d : EmotionDistribution) (eye : ℚ) (present : Bool)
    (h : present = false ∨ d = []) :
    computeInterviewMetrics d eye present = ⟨0, 0, 0⟩ := by
  rcases h with h | h <;> subst h <;> simp [computeInterviewMetrics]

/-- C4 witness: a huge adversarial distribution and full eye contact still
yield the all-zero metrics when the face-present flag is false. -/
theorem C4_witness :
    (false = false ∨ ([("happy", 1000000)] : EmotionDistribution) = []) ∧
      computeInterviewMetrics [("happy", 1000000)] 100 false = ⟨0, 0, 0⟩ :=
  ⟨Or.inl rfl,
    C4_no_face_or_empty_distribution_zeroes [("happy", 1000000)] 100 false (Or.inl rfl)⟩

/-- C5 (amended): the session reduction is a pure read of the session
state: all report fields except `duration_seconds` (which reflects the
wall clock at the moment of the call) are determined by the session alone,
so two reductions with no intervening record agree on every other field. -/
theorem C5_reduce_pure_except_duration (s : Session) (now₁ now₂ : ℚ) :
    eraseDuration (getSessionFeedback s now₁) =
      eraseDuration (getSessionFeedback s now₂) := by
  by_cases h : s.total_analyzed = 0 <;>
    simp [getSessionFeedback, eraseDuration, h]

/-- C5 counterexample: on a session of one recorded face-less frame, two
reductions taken one second apart return different dictionaries — the
`duration_seconds` field is 0.0 at the first call and 1.0 at the second. -/
theorem C5_counterexample_duration_field_varies :
    getSessionFeedback ⟨0, [], [], [], [], [], 0, 1⟩ 0 ≠
      getSessionFeedback ⟨0, [], [], [], [], [], 0, 1⟩ 1 := by
  simp only [getSessionFeedback, Except.ok.injEq, SessionReport.mk.injEq, ne_eq]
  norm_num [round1, roundHalfEven]

end Facial

namespace Facial

/-- One `analyze_frame` call increments `total_analyzed`, and increments
`face_present_count` and extends each per-metric list exactly when the
observed frame has a face; the session start time never changes. -/
lemma analyzeFrame_session_step (st : ModelState) (o : FrameObs) :
    ((analyzeFrame st o).1).session.total_analyzed
        = st.session.total_analyzed + 1 ∧
    ((analyzeFrame st o).1).session.face_present_count
        = st.session.face_present_count + (if facePresent o then 1 else 0) ∧
    ((analyzeFrame st o).1).session.confidence.length
        = st.session.confidence.length + (if facePresent o then 1 else 0) ∧
    ((analyzeFrame st o).1).session.nervousness.length
        = st.session.nervousness.length + (if facePresent o then 1 else 0) ∧
    ((analyzeFrame st o).1).session.engagement.length
        = st.session.engagement.length + (if facePresent o then 1 else 0) ∧
    ((analyzeFrame st o).1).session.eye_contact.length
        = st.session.eye_contact.length + (if facePresent o then 1 else 0) ∧
    ((analyzeFrame st o).1).session.emotions.length
        = st.session.emotions.length + (if facePresent o then 1 else 0) ∧
    ((analyzeFrame st o).1).session.start_time = st.session.start_time := by
  rcases o with ⟨eye, df⟩
  cases df with
  | none => simp [analyzeFrame, facePresent]
  | some fd =>
    by_cases hwh : 0 < fd.regionW ∧ 0 < fd.regionH
    · have hfp : facePresent ⟨eye, some fd⟩ = true := by
        simp [facePresent, hwh.1, hwh.2]
      simp [analyzeFrame, hwh, hfp]
    · have hfp : facePresent ⟨eye, some fd⟩ = false := by
        rcases not_and_or.mp hwh with hw | hh
        · simp [facePresent, hw]
        · simp [facePresent, hh]
      simp [analyzeFrame, hwh, hfp]

/-- Running any observation sequence adds its length to `total_analyzed`
and its face-present count to `face_present_count` and to every
per-metric list length, leaving the start time unchanged. -/
lemma runFrames_session (obs : List FrameObs) :
    ∀ st : ModelState,
      (runFrames st obs).session.total_analyzed
          = st.session.total_analyzed + obs.length ∧
      (runFrames st obs).session.face_present_count
          = st.session.face_present_count + obs.countP facePresent ∧
      (runFrames st obs).session.confidence.length
          = st.session.confidence.length + obs.countP facePresent ∧
      (runFrames st obs).session.nervousness.length
          = st.session.nervousness.length + obs.countP facePresent ∧
      (runFrames st obs).session.engagement.length
          = st.session.engagement.length + obs.countP facePresent ∧
      (runFrames st obs).session.eye_contact.length
          = st.session.eye_contact.length + obs.countP facePresent ∧
      (runFrames st obs).session.emotions.length
          = st.session.emotions.length + obs.countP facePresent ∧
      (runFrames st obs).session.start_time = st.session.start_time := by
  induction obs with
  | nil => intro st; simp [runFrames]
  | cons o t ih =>
    intro st
    obtain ⟨h1, h2, h3, h4, h5, h6, h7, h8⟩ := analyzeFrame_session_step st o
    obtain ⟨g1, g2, g3, g4, g5, g6, g7, g8⟩ := ih ((analyzeFrame st o).1)
    simp only [runFrames, List.foldl_cons] at g1 g2 g3 g4 g5 g6 g7 g8 ⊢
    simp only [List.countP_cons, List.length_cons]
    exact ⟨by omega, by omega, by omega, by omega, by omega, by omega, by omega,
      by rw [g8, h8]⟩

/-- C6: after any sequence of `analyze_frame` calls on a fresh session, the
confidence, nervousness, engagement, eye-contact and emotion lists all
have length equal to `face_present_count`, which is at most
`total_analyzed`, and `total_analyzed` counts all frames; in particular
the ten sample frames, four of which have no face, give
`total_analyzed = 10`, `face_present_count = 6`, and every list length 6. -/
theorem C6_session_lists_track_face_present_count
    (hs : ℕ) (t0 : ℚ) (obs : List FrameObs) :
    ((runFrames (initModel hs t0) obs).session.confidence.length
        = (runFrames (initModel hs t0) obs).session.face_present_count ∧
      (runFrames (initModel hs t0) obs).session.nervousness.length
        = (runFrames (initModel hs t0) obs).session.face_present_count ∧
      (runFrames (initModel hs t0) obs).session.engagement.length
        = (runFrames (initModel hs t0) obs).session.face_present_count ∧
      (runFrames (initModel hs t0) obs).session.eye_contact.length
        = (runFrames (initModel hs t0) obs).session.face_present_count ∧
      (runFrames (initModel hs t0) obs).session.emotions.length
        = (runFrames (initModel hs t0) obs).session.face_present_count ∧
      (runFrames (initModel hs t0) obs).session.face_present_count
        ≤ (runFrames (initModel hs t0) obs).session.total_analyzed ∧
      (runFrames (initModel hs t0) obs).session.total_analyzed = obs.length) ∧
    ((runFrames (initModel 5 0) sampleFrames).session.total_analyzed = 10 ∧
      (runFrames (initModel 5 0) sampleFrames).session.face_present_count = 6 ∧
      (runFrames (initModel 5 0) sampleFrames).session.confidence.length = 6 ∧
      (runFrames (initModel 5 0) sampleFrames).session.nervousness.length = 6 ∧
      (runFrames (initModel 5 0) sampleFrames).session.engagement.length = 6 ∧
      (runFrames (initModel 5 0) sampleFrames).session.eye_contact.length = 6 ∧
      (runFrames (initModel 5 0) sampleFrames).session.emotions.length = 6) := by
  constructor
  · obtain ⟨h1, h2, h3, h4, h5, h6, h7, _⟩ :=
      runFrames_session obs (initModel hs t0)
    have hle := List.countP_le_length (p := facePresent) (l := obs)
    have e1 : (initModel hs t0).session.total_analyzed = 0 := rfl
    have e2 : (initModel hs t0).session.face_present_count = 0 := rfl
    have e3 : (initModel hs t0).session.confidence.length = 0 := rfl
    have e4 : (initModel hs t0).session.nervousness.length = 0 := rfl
    have e5 : (initModel hs t0).session.engagement.length = 0 := rfl
    have e6 : (initModel hs t0).session.eye_contact.length = 0 := rfl
    have e7 : (initModel hs t0).session.emotions.length = 0 := rfl
    omega
  · obtain ⟨h1, h2, h3, h4, h5, h6, h7, _⟩ :=
      runFrames_session sampleFrames (initModel 5 0)
    have hc : sampleFrames.countP facePresent = 6 := by decide
    have hl : sampleFrames.length = 10 := by decide
    have e1 : (initModel 5 0).session.total_analyzed = 0 := rfl
    have e2 : (initModel 5 0).session.face_present_count = 0 := rfl
    have e3 : (initModel 5 0).session.confidence.length = 0 := rfl
    have e4 : (initModel 5 0).session.nervousness.length = 0 := rfl
    have e5 : (initModel 5 0).session.engagement.length = 0 := rfl
    have e6 : (initModel 5 0).session.eye_contact.length = 0 := rfl
    have e7 : (initModel 5 0).session.emotions.length = 0 := rfl
    omega

/-- C10: a session with frames analyzed but no face ever present reduces
to a normal report (not the empty-session error) with all averages and the
face-presence rate 0.0, and `overall_score` exactly 25.0 — the
`(100 − avg_nervousness)` term contributes `0.25·100` even though no
metric data was recorded. -/
theorem C10_all_frames_faceless_overall_25
    (hs : ℕ) (t0 now : ℚ) (obs : List FrameObs)
    (hne : obs ≠ []) (hnoface : ∀ o ∈ obs, facePresent o = false) :
    ∃ r : SessionReport,
      getSessionFeedback ((runFrames (initModel hs t0) obs).session) now = .ok r ∧
      r.avg_confidence = 0 ∧ r.avg_nervousness = 0 ∧ r.avg_engagement = 0 ∧
      r.avg_eye_contact = 0 ∧ r.face_presence_rate = 0 ∧ r.overall_score = 25 ∧
      r.total_frames_analyzed = obs.length := by
  obtain ⟨h1, h2, h3, h4, h5, h6, h7, h8⟩ :=
    runFrames_session obs (initModel hs t0)
  have hcount : obs.countP facePresent = 0 := by
    rw [List.countP_eq_zero]
    intro a ha
    simp [hnoface a ha]
  have e1 : (initModel hs t0).session.total_analyzed = 0 := rfl
  have e2 : (initModel hs t0).session.face_present_count = 0 := rfl
  have e3 : (initModel hs t0).session.confidence.length = 0 := rfl
  have e4 : (initModel hs t0).session.nervousness.length = 0 := rfl
  have e5 : (initModel hs t0).session.engagement.length = 0 := rfl
  have e6 : (initModel hs t0).session.eye_contact.length = 0 := rfl
  have e7 : (initModel hs t0).session.emotions.length = 0 := rfl
  have hconf : (runFrames (initModel hs t0) obs).session.confidence = [] :=
    List.length_eq_zero.mp (by omega)
  have hnerv : (runFrames (initModel hs t0) obs).session.nervousness = [] :=
    List.length_eq_zero.mp (by omega)
  have heng : (runFrames (initModel hs t0) obs).session.engagement = [] :=
    List.length_eq_zero.mp (by omega)
  have heye : (runFrames (initModel hs t0) obs).session.eye_contact = [] :=
    List.length_eq_zero.mp (by omega)
  have hface : (runFrames (initModel hs t0) obs).session.face_present_count = 0 := by
    omega
  have hT : (runFrames (initModel hs t0) obs).session.total_analyzed = obs.length := by
    omega
  have hTne : (runFrames (initModel hs t0) obs).session.total_analyzed ≠ 0 := by
    rw [hT]
    exact fun h => hne (List.length_eq_zero.mp h)
  unfold getSessionFeedback
  rw [if_neg hTne]
  refine ⟨_, rfl, ?_, ?_, ?_, ?_, ?_, ?_, ?_⟩
  · rw [hconf]; norm_num [listAvg, round1, roundHalfEven]
  · rw [hnerv]; norm_num [listAvg, round1, roundHalfEven]
  · rw [heng]; norm_num [listAvg, round1, roundHalfEven]
  · rw [heye]; norm_num [listAvg, round1, roundHalfEven]
  · rw [hface]; norm_num [round1, roundHalfEven]
  · rw [hconf, hnerv, heng, heye]; norm_num [listAvg, round1, roundHalfEven]
  · exact hT

/-- C10 witness: one frame whose analysis raised in DeepFace (so no face)
still produces a normal report with overall score 25. -/
theorem C10_witness :
    (([⟨none, none⟩] : List FrameObs) ≠ [] ∧
      ∀ o ∈ ([⟨none, none⟩] : List FrameObs), facePresent o = false) ∧
    ∃ r : SessionReport,
      getSessionFeedback
          ((runFrames (initModel 5 0) [⟨none, none⟩]).session) 2 = .ok r ∧
      r.avg_confidence = 0 ∧ r.avg_nervousness = 0 ∧ r.avg_engagement = 0 ∧
      r.avg_eye_contact = 0 ∧ r.face_presence_rate = 0 ∧ r.overall_score = 25 ∧
      r.total_frames_analyzed = ([⟨none, none⟩] : List FrameObs).length :=
  ⟨⟨by simp, by intro o ho; simp at ho; subst ho; rfl⟩,
    C10_all_frames_faceless_overall_25 5 0 2 [⟨none, none⟩] (by simp)
      (by intro o ho; simp at ho; subst ho; rfl)⟩
end Facial

namespace Vocal

/-- C2 counterexample: on a quarter-second clip (4000 samples at 16 kHz)
the short-audio guard makes `analyze_tone` raise a `RuntimeError` wrapping
the "too short" `ValueError` message — the caller receives a raised
exception, not an explicit zero-score result. -/
theorem C2_counterexample_short_clip_raises :
    analyzeTone true 4000 16000 (0 : ℕ) (fun n => n) =
      .error (.runtimeError
        "Audio analysis failed: Audio is too short (< 0.5 s) for meaningful analysis.") := by
  simp only [analyzeTone, extractSignalFeatures, Bool.not_true]
  rw [if_pos (by norm_num : ((4000 : ℕ) : ℚ) / ((16000 : ℕ) : ℚ) < 1/2)]
  rfl

/-- C2 (amended): for every audio clip whose duration is less than 0.5
seconds, the failure is detected before any sub-score computation (the
downstream analysis `rest` is never invoked, whatever it is), and
`analyze_tone` propagates a `RuntimeError` carrying the "too short"
explanatory message to the caller. -/
theorem C2_short_clip_raises_before_scoring {α β : Type}
    (n sr : ℕ) (feats : α) (rest : α → β)
    (hsr : 0 < sr) (hshort : (n : ℚ) / (sr : ℚ) < 1/2) :
    analyzeTone true n sr feats rest =
      .error (.runtimeError
        "Audio analysis failed: Audio is too short (< 0.5 s) for meaningful analysis.") := by
  simp only [analyzeTone, extractSignalFeatures, Bool.not_true]
  rw [if_pos hshort]
  rfl

/-- C2 witness: a quarter-second clip at 8 kHz trips the guard. -/
theorem C2_witness :
    (0 < 8000 ∧ ((2000 : ℚ) / (8000 : ℚ) < 1/2)) ∧
      analyzeTone true 2000 8000 (0 : ℚ) (fun q => q) =
        .error (.runtimeError
          "Audio analysis failed: Audio is too short (< 0.5 s) for meaningful analysis.") :=
  ⟨⟨by norm_num, by norm_num⟩,
    C2_short_clip_raises_before_scoring 2000 8000 0 (fun q => q)
      (by norm_num) (by norm_num)⟩

end Vocal

end Intervexa
